import Mathlib

/-!
Shallow embedding of the quote-pricing engine of the ss-calculator
repository.  All JavaScript numbers that the engine manipulates are
modelled as rationals (ℚ); the value `Infinity` used as an upper bound
in the static rate tables is modelled by an explicit extended-number
type.  Three variants of `calculateQuote` exist in the source:

* the flexible/legacy variant (`src/unnamed/part_001`, and the identical
  body in `src/unnamed/part_004`), embedded as `calculateQuoteFlexible`;
* the static-configuration variant (`src/unnamed/part_002`), embedded as
  `calculateQuoteStatic` together with the built-in `staticRateSettings`;
* the hard-coded variant in `src/components/QuoteForm.tsx`, whose price
  branch shape (Apartment / House / nothing) is shared with the static
  variant.
-/

/-- One entry of the `rooms` object: `{count, percentage, weight}`. -/
structure RoomEntry where
  count : ℚ
  percentage : ℚ
  weight : ℚ
deriving DecidableEq

/-- `RoomData`: the object mapping room-type names to entries, modelled as
the ordered list of its entries (`Object.values` iterates in insertion
order). -/
abbrev RoomData := List (String × RoomEntry)

/-- The form data record feeding `calculateQuote`
(interface `CalculatorFormData`). -/
structure CalculatorFormData where
  propertyType : String
  styling : String
  propertyAddress : String
  distanceFromWarehouse : ℚ
  listingPrice : ℚ
  accessDifficulty : String
  roomRate : ℚ
  rooms : RoomData
deriving DecidableEq

/-- `Object.values(formData.rooms).reduce((total, room) =>
total + room.count * (room.percentage / 100) * room.weight, 0)`. -/
def equivalentRoomsOf (rooms : RoomData) : ℚ :=
  rooms.foldl (fun total room =>
    total + room.2.count * (room.2.percentage / 100) * room.2.weight) 0

/-- JavaScript `Math.round` on a rational: floor of `x + 1/2`
(halves round toward positive infinity). -/
def jsRound (x : ℚ) : ℤ := ⌊x + 1/2⌋

/-- `Math.round(x * 100) / 100`: round to two decimal places. -/
def round2 (x : ℚ) : ℚ := ((jsRound (x * 100) : ℚ)) / 100

/-- The published `calculations` record. -/
structure Calculations where
  equivalentRooms : ℚ
  baseQuote : ℚ
  variation : ℚ
  finalQuote : ℚ
deriving DecidableEq

/-- A range of the flexible rate tables: `{min, max, rate}`. -/
structure RateRange where
  min : ℚ
  max : ℚ
  rate : ℚ
deriving DecidableEq

/-- The legacy threshold-style `RateSettings`
(interface at `src/unnamed/part_001` lines 30-46). -/
structure LegacyRateSettings where
  apartment_low_threshold : ℚ
  apartment_high_threshold : ℚ
  house_low_threshold : ℚ
  house_high_threshold : ℚ
  distance_close_threshold : ℚ
  distance_medium_min : ℚ
  distance_medium_max : ℚ
  distance_far_min : ℚ
  penalty_discount : ℚ
  reward_bonus : ℚ
  distance_close_discount : ℚ
  distance_medium_fee : ℚ
  distance_far_fee : ℚ
  access_standard_fee : ℚ
  access_difficult_fee : ℚ
  access_very_difficult_fee : ℚ
deriving DecidableEq

/-- The duck-typed settings object of the flexible variant: the optional
new-style range fields, plus the legacy fields reachable through the
`as RateSettings` cast when no range field is present. -/
structure RateSettingsObj where
  apartment_ranges : Option (List RateRange)
  house_ranges : Option (List RateRange)
  distance_ranges : Option (List RateRange)
  access_difficulty_rates : Option (List (String × ℚ))
  legacy : LegacyRateSettings
deriving DecidableEq

/-- JavaScript object key lookup (`m[key]`), `none` = `undefined`. -/
def lookupRate (key : String) : List (String × ℚ) → Option ℚ
  | [] => none
  | (k, v) :: rest => if k = key then some v else lookupRate key rest

/-- The `for (const range of ranges) { if (v >= range.min && v < range.max)
{ totalRate += range.rate; break; } }` loop, threading the accumulator. -/
def addFirstMatch (acc : ℚ) (v : ℚ) : List RateRange → ℚ
  | [] => acc
  | r :: rest =>
      if v ≥ r.min ∧ v < r.max then acc + r.rate else addFirstMatch acc v rest

/-- The contribution of one range table on its own: the loop started on a
zero accumulator. -/
def rateFromRanges (v : ℚ) (rs : List RateRange) : ℚ :=
  addFirstMatch 0 v rs

/-- The contribution of an optional range table (`undefined` tables are
skipped, contributing nothing). -/
def optRangeRate (v : ℚ) : Option (List RateRange) → ℚ
  | some rs => rateFromRanges v rs
  | none => 0

/-- The property/price contribution of the flexible path:
`propertyType === 'Apartment' ? apartment_ranges : house_ranges`,
a missing table contributing nothing. -/
def flexPropertyRate (fd : CalculatorFormData) (fr : RateSettingsObj) : ℚ :=
  optRangeRate fd.listingPrice
    (if fd.propertyType = "Apartment" then fr.apartment_ranges
     else fr.house_ranges)

/-- The distance contribution of the flexible path. -/
def flexDistanceRate (fd : CalculatorFormData) (fr : RateSettingsObj) : ℚ :=
  optRangeRate fd.distanceFromWarehouse fr.distance_ranges

/-- The access-difficulty contribution of the flexible path:
`if (access_difficulty_rates && formData.accessDifficulty)` (an empty
string is falsy) then add the keyed value when it is not `undefined`. -/
def flexAccessRate (fd : CalculatorFormData) (fr : RateSettingsObj) : ℚ :=
  match fr.access_difficulty_rates with
  | some m =>
      if fd.accessDifficulty ≠ "" then
        match lookupRate fd.accessDifficulty m with
        | some v => v
        | none => 0
      else 0
  | none => 0

/-- The flexible-path rate computation exactly as the source threads its
`totalRate` accumulator through the three blocks. -/
def flexibleTotalRate (fd : CalculatorFormData) (fr : RateSettingsObj) : ℚ :=
  let t0 : ℚ := 0
  let t1 :=
    match (if fd.propertyType = "Apartment" then fr.apartment_ranges
           else fr.house_ranges) with
    | some rs => addFirstMatch t0 fd.listingPrice rs
    | none => t0
  let t2 :=
    match fr.distance_ranges with
    | some rs => addFirstMatch t1 fd.distanceFromWarehouse rs
    | none => t1
  match fr.access_difficulty_rates with
  | some m =>
      if fd.accessDifficulty ≠ "" then
        match lookupRate fd.accessDifficulty m with
        | some v => t2 + v
        | none => t2
      else t2
  | none => t2

/-- The legacy (threshold) rate computation: the `else` branch of the
flexible variant, accumulator threaded as in the source. -/
def legacyTotalRate (fd : CalculatorFormData) (s : LegacyRateSettings) : ℚ :=
  let t1 : ℚ :=
    if fd.propertyType = "Apartment" then
      (if fd.listingPrice < s.apartment_low_threshold then -s.penalty_discount
       else if fd.listingPrice > s.apartment_high_threshold then s.reward_bonus
       else 0)
    else if fd.propertyType = "House" then
      (if fd.listingPrice < s.house_low_threshold then -s.penalty_discount
       else if fd.listingPrice > s.house_high_threshold then s.reward_bonus
       else 0)
    else 0
  let t2 :=
    if fd.distanceFromWarehouse < s.distance_close_threshold then
      t1 - s.distance_close_discount
    else if fd.distanceFromWarehouse ≥ s.distance_medium_min ∧
            fd.distanceFromWarehouse < s.distance_medium_max then
      t1 + s.distance_medium_fee
    else if fd.distanceFromWarehouse ≥ s.distance_far_min then
      t1 + s.distance_far_fee
    else t1
  if fd.accessDifficulty = "Standard" then t2 + s.access_standard_fee
  else if fd.accessDifficulty = "Difficult" then t2 + s.access_difficult_fee
  else if fd.accessDifficulty = "Very Difficult" then
    t2 + s.access_very_difficult_fee
  else t2

/-- `totalRate` of the flexible/legacy variant: 0 when `rateSettings` is
null; otherwise dispatch on `apartment_ranges || house_ranges`. -/
def totalRateOf (fd : CalculatorFormData) :
    Option RateSettingsObj → ℚ
  | none => 0
  | some fr =>
      if fr.apartment_ranges.isSome ∨ fr.house_ranges.isSome then
        flexibleTotalRate fd fr
      else
        legacyTotalRate fd fr.legacy

/-- `calculateQuote` of `src/unnamed/part_001` (identically
`src/unnamed/part_004`): integer rounding of the money fields,
two-decimal rounding of `equivalentRooms`. -/
def calculateQuoteFlexible (fd : CalculatorFormData)
    (rateSettings : Option RateSettingsObj) : Calculations :=
  let equivalentRooms := equivalentRoomsOf fd.rooms
  let baseQuote := equivalentRooms * fd.roomRate
  let totalRate := totalRateOf fd rateSettings
  let variation := totalRate * baseQuote
  let finalQuote := baseQuote + variation
  { equivalentRooms := round2 equivalentRooms
    baseQuote := (jsRound baseQuote : ℚ)
    variation := (jsRound variation : ℚ)
    finalQuote := (jsRound finalQuote : ℚ) }

/-- A JavaScript number appearing as a range bound: finite, or
`Infinity`. -/
inductive ExtNum where
  | fin : ℚ → ExtNum
  | inf : ExtNum
deriving DecidableEq

/-- The comparison `x < m` with `m` possibly `Infinity`. -/
def ltExt (x : ℚ) : ExtNum → Bool
  | .fin m => decide (x < m)
  | .inf => true

/-- `interface PriceRange {maxPrice, rate}` of the static variant. -/
structure PriceRange where
  maxPrice : ExtNum
  rate : ℚ
deriving DecidableEq

/-- `interface DistanceRange {maxDistance, rate}` of the static variant. -/
structure DistanceRange where
  maxDistance : ExtNum
  rate : ℚ
deriving DecidableEq

/-- `interface RateSettings` of the static variant. -/
structure StaticRateSettings where
  apartmentPriceRanges : List PriceRange
  housePriceRanges : List PriceRange
  distanceRanges : List DistanceRange
  accessDifficultyRates : List (String × ℚ)
deriving DecidableEq

/-- The built-in `staticRateSettings` constant of `src/unnamed/part_002`,
transcribed value for value. -/
def staticRateSettings : StaticRateSettings :=
  { apartmentPriceRanges :=
      [ ⟨.fin 600000, -(1/10)⟩
      , ⟨.fin 800000, -(1/20)⟩
      , ⟨.fin 1000000, 0⟩
      , ⟨.inf, 0⟩ ]
    housePriceRanges :=
      [ ⟨.fin 1500000, -(1/10)⟩
      , ⟨.fin 2000000, -(1/20)⟩
      , ⟨.fin 3000000, 0⟩
      , ⟨.fin 5000000, 1/20⟩
      , ⟨.fin 7000000, 1/10⟩
      , ⟨.fin 10000000, 1/5⟩
      , ⟨.inf, 1/5⟩ ]
    distanceRanges :=
      [ ⟨.fin 15, 0⟩
      , ⟨.fin 30, 1/20⟩
      , ⟨.fin 50, 1/10⟩
      , ⟨.fin 80, 1/4⟩
      , ⟨.inf, 1/4⟩ ]
    accessDifficultyRates :=
      [ ("Easy", 0), ("Standard", 1/20), ("Difficult", 1/10) ] }

/-- `find(range => price < range.maxPrice)` over one table; a failed find
contributes nothing. -/
def priceRateFromTable (price : ℚ) (rs : List PriceRange) : ℚ :=
  match rs.find? (fun r => ltExt price r.maxPrice) with
  | some r => r.rate
  | none => 0

/-- The price contribution of the static variant:
`if Apartment ... else if House ...`; any other property type skips the
block. -/
def staticPriceRate (fd : CalculatorFormData) : ℚ :=
  if fd.propertyType = "Apartment" then
    priceRateFromTable fd.listingPrice staticRateSettings.apartmentPriceRanges
  else if fd.propertyType = "House" then
    priceRateFromTable fd.listingPrice staticRateSettings.housePriceRanges
  else 0

/-- The distance contribution of the static variant. -/
def staticDistanceRate (fd : CalculatorFormData) : ℚ :=
  match staticRateSettings.distanceRanges.find?
      (fun r => ltExt fd.distanceFromWarehouse r.maxDistance) with
  | some r => r.rate
  | none => 0

/-- The access-difficulty contribution of the static variant:
`accessDifficultyRates[formData.accessDifficulty]`, skipped when
`undefined`. -/
def staticAccessRate (fd : CalculatorFormData) : ℚ :=
  match lookupRate fd.accessDifficulty
      staticRateSettings.accessDifficultyRates with
  | some v => v
  | none => 0

/-- `totalRate` of the static variant. -/
def staticTotalRate (fd : CalculatorFormData) : ℚ :=
  staticPriceRate fd + staticDistanceRate fd + staticAccessRate fd

/-- The exact (pre-rounding) base quote. -/
def rawBaseQuote (fd : CalculatorFormData) : ℚ :=
  equivalentRoomsOf fd.rooms * fd.roomRate

/-- The exact (pre-rounding) variation of the static variant. -/
def rawVariationStatic (fd : CalculatorFormData) : ℚ :=
  staticTotalRate fd * rawBaseQuote fd

/-- The exact (pre-rounding) final quote of the static variant. -/
def rawFinalQuoteStatic (fd : CalculatorFormData) : ℚ :=
  rawBaseQuote fd + rawVariationStatic fd

/-- `calculateQuote` of `src/unnamed/part_002`: every published field
rounded to two decimal places. -/
def calculateQuoteStatic (fd : CalculatorFormData) : Calculations :=
  let equivalentRooms := equivalentRoomsOf fd.rooms
  let baseQuote := equivalentRooms * fd.roomRate
  let totalRate := staticTotalRate fd
  let variation := totalRate * baseQuote
  let finalQuote := baseQuote + variation
  { equivalentRooms := round2 equivalentRooms
    baseQuote := round2 baseQuote
    variation := round2 variation
    finalQuote := round2 finalQuote }

/-- Scaling every room entry's count by `k` (the transformation of the
linearity property). -/
def scaleCounts (k : ℚ) (rooms : RoomData) : RoomData :=
  rooms.map (fun p => (p.1, { p.2 with count := k * p.2.count }))

/-- The room map of Scenario A: a living room of weight 2 and a kitchen
of weight 1/2, both fully styled. -/
def scenarioARooms : RoomData :=
  [ ("Living Room", ⟨1, 100, 2⟩), ("Kitchen", ⟨1, 100, 1/2⟩) ]

/-- An all-zero legacy block, used when the flexible range path makes the
legacy fields unreachable. -/
def zeroLegacy : LegacyRateSettings :=
  ⟨0, 0, 0, 0, 0, 0, 0, 0, 0, 0, 0, 0, 0, 0, 0, 0⟩

/-- The rate configuration of Scenario B: two apartment price ranges, one
distance range and a single access-difficulty key. -/
def scenarioBSettings : RateSettingsObj :=
  { apartment_ranges := some [ ⟨0, 600000, -(1/10)⟩, ⟨600000, 800000, -(1/20)⟩ ]
    house_ranges := none
    distance_ranges := some [ ⟨0, 15, 0⟩ ]
    access_difficulty_rates := some [ ("Easy", 0) ]
    legacy := zeroLegacy }

/-- The form data of Scenario B (rooms of Scenario A, room rate 400). -/
def scenarioBInput : CalculatorFormData :=
  { propertyType := "Apartment"
    styling := "Full"
    propertyAddress := ""
    distanceFromWarehouse := 5
    listingPrice := 500000
    accessDifficulty := "Easy"
    roomRate := 400
    rooms := scenarioARooms }

/-- An input on which independent per-field rounding breaks the
round-trip: one room of weight 1 at room rate 14.505 in an apartment
below the 600k threshold. -/
def roundTripInput : CalculatorFormData :=
  { propertyType := "Apartment"
    styling := "Full"
    propertyAddress := ""
    distanceFromWarehouse := 0
    listingPrice := 500000
    accessDifficulty := "Easy"
    roomRate := 2901/200
    rooms := [ ("Living Room", ⟨1, 100, 1⟩) ] }

/-- An input whose property type is neither `Apartment` nor `House`. -/
def villaInput : CalculatorFormData :=
  { propertyType := "Villa"
    styling := "Full"
    propertyAddress := ""
    distanceFromWarehouse := 0
    listingPrice := 0
    accessDifficulty := "Easy"
    roomRate := 400
    rooms := scenarioARooms }

/-- An input whose access difficulty is not a key of any configured
rate map. -/
def unknownAccessInput : CalculatorFormData :=
  { propertyType := "Apartment"
    styling := "Full"
    propertyAddress := ""
    distanceFromWarehouse := 5
    listingPrice := 900000
    accessDifficulty := "Very Difficult"
    roomRate := 400
    rooms := scenarioARooms }

/-- Scenario B with a different styling and property address: the two
fields the engine never reads. -/
def altStylingInput : CalculatorFormData :=
  { scenarioBInput with styling := "Partial", propertyAddress := "42 Example St" }

lemma addFirstMatch_eq (v : ℚ) :
    ∀ (rs : List RateRange) (acc : ℚ),
      addFirstMatch acc v rs = acc + rateFromRanges v rs := by
  intro rs
  induction rs with
  | nil => intro acc; simp [addFirstMatch, rateFromRanges]
  | cons r rest ih =>
      intro acc
      by_cases h : v ≥ r.min ∧ v < r.max
      · simp [addFirstMatch, rateFromRanges, h]
      · simp only [addFirstMatch, rateFromRanges, if_neg h]
        rw [ih, ih]
        ring

lemma foldl_add_map {α : Type} (f : α → ℚ) :
    ∀ (l : List α) (a : ℚ),
      l.foldl (fun t r => t + f r) a = a + (l.map f).sum := by
  intro l
  induction l with
  | nil => intro a; simp
  | cons x xs ih =>
      intro a
      simp only [List.foldl_cons, List.map_cons, List.sum_cons]
      rw [ih]
      ring

lemma equivalentRoomsOf_eq_sum (rooms : RoomData) :
    equivalentRoomsOf rooms =
      (rooms.map (fun p => p.2.count * (p.2.percentage / 100) * p.2.weight)).sum := by
  unfold equivalentRoomsOf
  rw [foldl_add_map]
  ring

lemma flexibleTotalRate_eq_sum (fd : CalculatorFormData) (fr : RateSettingsObj) :
    flexibleTotalRate fd fr =
      flexPropertyRate fd fr + flexDistanceRate fd fr + flexAccessRate fd fr := by
  unfold flexibleTotalRate flexPropertyRate flexDistanceRate flexAccessRate
    optRangeRate
  cases h1 : (if fd.propertyType = "Apartment" then fr.apartment_ranges
              else fr.house_ranges) with
  | none =>
      cases h2 : fr.distance_ranges with
      | none =>
          cases h3 : fr.access_difficulty_rates with
          | none => simp
          | some m =>
              by_cases h4 : fd.accessDifficulty ≠ ""
              · cases h5 : lookupRate fd.accessDifficulty m <;> simp [h4, h5]
              · simp [h4]
      | some rs2 =>
          cases h3 : fr.access_difficulty_rates with
          | none => simp [addFirstMatch_eq]
          | some m =>
              by_cases h4 : fd.accessDifficulty ≠ ""
              · cases h5 : lookupRate fd.accessDifficulty m <;>
                  simp [h4, h5, addFirstMatch_eq]
              · simp [h4, addFirstMatch_eq]
  | some rs1 =>
      cases h2 : fr.distance_ranges with
      | none =>
          cases h3 : fr.access_difficulty_rates with
          | none => simp [addFirstMatch_eq]
          | some m =>
              by_cases h4 : fd.accessDifficulty ≠ ""
              · cases h5 : lookupRate fd.accessDifficulty m <;>
                  simp [h4, h5, addFirstMatch_eq]
              · simp [h4, addFirstMatch_eq]
      | some rs2 =>
          cases h3 : fr.access_difficulty_rates with
          | none => simp [addFirstMatch_eq]
          | some m =>
              by_cases h4 : fd.accessDifficulty ≠ ""
              · cases h5 : lookupRate fd.accessDifficulty m <;>
                  simp [h4, h5, addFirstMatch_eq]
              · simp [h4, addFirstMatch_eq]

lemma jsRound_eval {x : ℚ} {n : ℤ} (h1 : (n : ℚ) ≤ x + 1/2)
    (h2 : x + 1/2 < (n : ℚ) + 1) : jsRound x = n := by
  unfold jsRound
  rw [Int.floor_eq_iff]
  constructor
  · exact h1
  · exact_mod_cast h2

lemma round2_eval {x : ℚ} {n : ℤ} (h1 : (n : ℚ) ≤ x * 100 + 1/2)
    (h2 : x * 100 + 1/2 < (n : ℚ) + 1) : round2 x = (n : ℚ) / 100 := by
  unfold round2
  rw [jsRound_eval h1 h2]

lemma rateFromRanges_of_find (v : ℚ) (rs : List RateRange) (r : RateRange)
    (h : rs.find? (fun x => decide (v ≥ x.min ∧ v < x.max)) = some r) :
    rateFromRanges v rs = r.rate := by
  induction rs with
  | nil => simp [List.find?] at h
  | cons a l ih =>
      by_cases hc : v ≥ a.min ∧ v < a.max
      · rw [List.find?_cons_of_pos _ (by simpa using hc)] at h
        injection h with h
        subst h
        simp [rateFromRanges, addFirstMatch, hc]
      · rw [List.find?_cons_of_neg _ (by simpa using hc)] at h
        have : rateFromRanges v (a :: l) = rateFromRanges v l := by
          simp [rateFromRanges, addFirstMatch, hc]
        rw [this]
        exact ih h

lemma rateFromRanges_of_no_match (v : ℚ) (rs : List RateRange)
    (h : ∀ r ∈ rs, ¬(v ≥ r.min ∧ v < r.max)) :
    rateFromRanges v rs = 0 := by
  induction rs with
  | nil => rfl
  | cons a l ih =>
      have ha := h a (by simp)
      have : rateFromRanges v (a :: l) = rateFromRanges v l := by
        simp [rateFromRanges, addFirstMatch, ha]
      rw [this]
      exact ih (fun r hr => h r (by simp [hr]))

/-- Claim C1: range lookup is inclusive-min/exclusive-max with
first-match-wins: whenever `find?` locates the first range satisfying
`listingPrice ≥ min ∧ listingPrice < max`, the scan contributes exactly
that range's rate; in particular a listing price of exactly 600000
against ranges `[{0,600000,-0.1},{600000,800000,-0.05}]` resolves to the
second range and contributes -0.05, not -0.1. -/
theorem range_lookup_inclusive_min_exclusive_max :
    (∀ (v : ℚ) (rs : List RateRange) (r : RateRange),
        rs.find? (fun x => decide (v ≥ x.min ∧ v < x.max)) = some r →
        rateFromRanges v rs = r.rate)
    ∧ rateFromRanges 600000
        [ ⟨0, 600000, -(1/10)⟩, ⟨600000, 800000, -(1/20)⟩ ] = -(1/20)
    ∧ rateFromRanges 600000
        [ ⟨0, 600000, -(1/10)⟩, ⟨600000, 800000, -(1/20)⟩ ] ≠ -(1/10) := by
  refine ⟨rateFromRanges_of_find, ?_, ?_⟩
  · norm_num [rateFromRanges, addFirstMatch]
  · norm_num [rateFromRanges, addFirstMatch]

/-- Witness for C1: at the boundary price 600000, the first matching
range of the two-range table is the second one, and the theorem then
computes its rate. -/
theorem range_lookup_inclusive_min_exclusive_max_witness :
    rateFromRanges 600000
        [ ⟨0, 600000, -(1/10)⟩, ⟨600000, 800000, -(1/20)⟩ ] =
      RateRange.rate ⟨600000, 800000, -(1/20)⟩ :=
  range_lookup_inclusive_min_exclusive_max.1 600000
    [ ⟨0, 600000, -(1/10)⟩, ⟨600000, 800000, -(1/20)⟩ ]
    ⟨600000, 800000, -(1/20)⟩
    (by norm_num [List.find?])

/-- Claim C2: whenever the flexible rate structure is active, the total
rate is the sum of exactly the three contributions (property/price,
distance, access difficulty), the accumulator starting at 0; concretely,
Scenario B (Apartment at 500000 against the two apartment ranges,
distance 5 against `[{0,15,0}]`, Easy access at rate 0, rooms of
Scenario A, room rate 400) yields totalRate -0.1, equivalentRooms 2.5,
baseQuote 1000, variation -100 and finalQuote 900. -/
theorem totalRate_sum_of_three_contributions :
    (∀ (fd : CalculatorFormData) (fr : RateSettingsObj),
        fr.apartment_ranges.isSome ∨ fr.house_ranges.isSome →
        totalRateOf fd (some fr) =
          flexPropertyRate fd fr + flexDistanceRate fd fr + flexAccessRate fd fr)
    ∧ totalRateOf scenarioBInput (some scenarioBSettings) = -(1/10)
    ∧ calculateQuoteFlexible scenarioBInput (some scenarioBSettings) =
        ⟨5/2, 1000, -100, 900⟩ := by
  refine ⟨?_, ?_, ?_⟩
  · intro fd fr h
    simp only [totalRateOf]
    rw [if_pos h]
    exact flexibleTotalRate_eq_sum fd fr
  · norm_num [totalRateOf, flexibleTotalRate, addFirstMatch, lookupRate,
      scenarioBInput, scenarioBSettings]
  · have ht : totalRateOf scenarioBInput (some scenarioBSettings) = -(1/10) := by
      norm_num [totalRateOf, flexibleTotalRate, addFirstMatch, lookupRate,
        scenarioBInput, scenarioBSettings]
    have her : equivalentRoomsOf scenarioBInput.rooms = 5/2 := by
      norm_num [equivalentRoomsOf, scenarioBInput, scenarioARooms]
    have hr : scenarioBInput.roomRate = 400 := rfl
    simp only [calculateQuoteFlexible, ht, her, hr]
    norm_num
    refine ⟨?_, ?_, ?_, ?_⟩
    · rw [round2_eval (n := 250) (by norm_num) (by norm_num)]; norm_num
    · rw [jsRound_eval (n := 1000) (by norm_num) (by norm_num)]; norm_num
    · rw [jsRound_eval (n := -100) (by norm_num) (by norm_num)]; norm_num
    · rw [jsRound_eval (n := 900) (by norm_num) (by norm_num)]; norm_num

/-- Witness for C2: the sum decomposition applied to the concrete
Scenario B configuration, whose apartment table is present. -/
theorem totalRate_sum_of_three_contributions_witness :
    totalRateOf scenarioBInput (some scenarioBSettings) =
      flexPropertyRate scenarioBInput scenarioBSettings +
        flexDistanceRate scenarioBInput scenarioBSettings +
        flexAccessRate scenarioBInput scenarioBSettings :=
  totalRate_sum_of_three_contributions.1 scenarioBInput scenarioBSettings
    (Or.inl rfl)

/-- Claim C3: the room aggregator is the sum over all entries of
`count * (percentage/100) * weight`, no entry being excluded (an entry of
count 0 contributes 0), and the base quote is this equivalent room count
times the room rate; Scenario A (living room {1,100,2} and kitchen
{1,100,0.5} at room rate 400) yields equivalentRooms 2.5 and
baseQuote 1000. -/
theorem room_aggregator_sum_and_base_quote :
    (∀ rooms : RoomData,
        equivalentRoomsOf rooms =
          (rooms.map (fun p => p.2.count * (p.2.percentage / 100) * p.2.weight)).sum)
    ∧ (∀ (rooms : RoomData) (name : String) (pct w : ℚ),
        equivalentRoomsOf ((name, ⟨0, pct, w⟩) :: rooms) = equivalentRoomsOf rooms)
    ∧ equivalentRoomsOf scenarioARooms = 5/2
    ∧ rawBaseQuote scenarioBInput = 1000 := by
  refine ⟨equivalentRoomsOf_eq_sum, ?_, ?_, ?_⟩
  · intro rooms name pct w
    rw [equivalentRoomsOf_eq_sum, equivalentRoomsOf_eq_sum]
    simp
  · norm_num [equivalentRoomsOf, scenarioARooms]
  · norm_num [rawBaseQuote, equivalentRoomsOf, scenarioBInput, scenarioARooms]

/-- Counterexample to C4: on the static path, each published field is
rounded independently, so the round-trip fails on the rounded values the
caller sees: at room rate 14.505 with one weight-1 room and rate -0.1
the published fields are baseQuote 14.51, variation -1.45 and
finalQuote 13.05, but 14.51 - 1.45 = 13.06. -/
theorem rounded_roundtrip_counterexample :
    (calculateQuoteStatic roundTripInput).finalQuote ≠
      (calculateQuoteStatic roundTripInput).baseQuote +
        (calculateQuoteStatic roundTripInput).variation := by
  have h : calculateQuoteStatic roundTripInput =
      ⟨1, 1451/100, -(29/20), 1305/100⟩ := by
    have ht : staticTotalRate roundTripInput = -(1/10) := by
      norm_num [staticTotalRate, staticPriceRate, staticDistanceRate,
        staticAccessRate, priceRateFromTable, roundTripInput,
        staticRateSettings, lookupRate, ltExt, List.find?]
    have her : equivalentRoomsOf roundTripInput.rooms = 1 := by
      norm_num [equivalentRoomsOf, roundTripInput]
    have hr : roundTripInput.roomRate = 2901/200 := rfl
    simp only [calculateQuoteStatic, ht, her, hr]
    norm_num
    refine ⟨?_, ?_, ?_, ?_⟩
    · rw [round2_eval (n := 100) (by norm_num) (by norm_num)]; norm_num
    · rw [round2_eval (n := 1451) (by norm_num) (by norm_num)]; norm_num
    · rw [round2_eval (n := -145) (by norm_num) (by norm_num)]; norm_num
    · rw [round2_eval (n := 1305) (by norm_num) (by norm_num)]; norm_num
  rw [h]
  norm_num

/-- C4 as amended: the identities `finalQuote = baseQuote + variation`
and `variation = totalRate * baseQuote` hold exactly on the pre-rounding
intermediates, and every published field is the rounding of its
intermediate (two decimals on the static path; integer rounding of the
money fields on the flexible path); on the independently rounded fields
the round-trip need not hold. -/
theorem quote_invariants_pre_rounding :
    ∀ (fd : CalculatorFormData) (rs : Option RateSettingsObj),
      rawFinalQuoteStatic fd = rawBaseQuote fd + rawVariationStatic fd
      ∧ rawVariationStatic fd = staticTotalRate fd * rawBaseQuote fd
      ∧ calculateQuoteStatic fd =
          ⟨round2 (equivalentRoomsOf fd.rooms), round2 (rawBaseQuote fd),
            round2 (rawVariationStatic fd), round2 (rawFinalQuoteStatic fd)⟩
      ∧ calculateQuoteFlexible fd rs =
          ⟨round2 (equivalentRoomsOf fd.rooms),
            ((jsRound (rawBaseQuote fd) : ℚ)),
            ((jsRound (totalRateOf fd rs * rawBaseQuote fd) : ℚ)),
            ((jsRound (rawBaseQuote fd + totalRateOf fd rs * rawBaseQuote fd) : ℚ))⟩ := by
  intro fd rs
  exact ⟨rfl, rfl, rfl, rfl⟩

/-- Claim C5: an unresolved rate dimension is never an error: a range
table in which no range matches contributes exactly 0, and an absent
access-difficulty key contributes exactly 0, on both the flexible and the
static path; concretely, a price outside all ranges together with an
unknown difficulty key still completes with totalRate 0. -/
theorem unresolved_rate_contributes_zero :
    (∀ (v : ℚ) (rs : List RateRange),
        (∀ r ∈ rs, ¬(v ≥ r.min ∧ v < r.max)) → rateFromRanges v rs = 0)
    ∧ (∀ (fd : CalculatorFormData) (fr : RateSettingsObj) (m : List (String × ℚ)),
        fr.access_difficulty_rates = some m →
        lookupRate fd.accessDifficulty m = none →
        flexAccessRate fd fr = 0)
    ∧ (∀ fd : CalculatorFormData,
        lookupRate fd.accessDifficulty staticRateSettings.accessDifficultyRates = none →
        staticAccessRate fd = 0)
    ∧ totalRateOf unknownAccessInput (some scenarioBSettings) = 0 := by
  refine ⟨rateFromRanges_of_no_match, ?_, ?_, ?_⟩
  · intro fd fr m h1 h2
    simp only [flexAccessRate, h1, h2]
    split_ifs <;> rfl
  · intro fd h
    simp only [staticAccessRate, h]
  · have hs1 : ("Easy" = "Very Difficult") = False := by decide
    have hs2 : ("Very Difficult" = "") = False := by decide
    norm_num [totalRateOf, flexibleTotalRate, addFirstMatch, lookupRate,
      unknownAccessInput, scenarioBSettings, hs1, hs2]

/-- Witness for C5: price 900000 matches neither apartment range, and the
key `Very Difficult` is absent from the static difficulty map; both
dimensions contribute 0. -/
theorem unresolved_rate_contributes_zero_witness :
    rateFromRanges 900000
        [ ⟨0, 600000, -(1/10)⟩, ⟨600000, 800000, -(1/20)⟩ ] = 0
    ∧ staticAccessRate unknownAccessInput = 0 :=
  ⟨unresolved_rate_contributes_zero.1 900000
      [ ⟨0, 600000, -(1/10)⟩, ⟨600000, 800000, -(1/20)⟩ ]
      (by
        intro r hr
        simp only [List.mem_cons, List.not_mem_nil, or_false] at hr
        rcases hr with rfl | rfl <;> norm_num),
    unresolved_rate_contributes_zero.2.2.1 unknownAccessInput
      (by simp [lookupRate, staticRateSettings, unknownAccessInput])⟩

/-- Counterexample to C6: in the static variant the price component is
resolved against `housePriceRanges` only when the property type is
exactly `House`; for the property type `Villa` at listing price 0 the
component is skipped (contributes 0) although the house table would
contribute -0.1. -/
theorem price_component_third_case_counterexample :
    staticPriceRate villaInput ≠
      priceRateFromTable villaInput.listingPrice staticRateSettings.housePriceRanges
    ∧ staticPriceRate villaInput = 0
    ∧ priceRateFromTable villaInput.listingPrice
        staticRateSettings.housePriceRanges = -(1/10) := by
  have h1 : staticPriceRate villaInput = 0 := by
    have hs1 : ("Villa" = "Apartment") = False := by decide
    have hs2 : ("Villa" = "House") = False := by decide
    norm_num [staticPriceRate, villaInput, hs1, hs2]
  have h2 : priceRateFromTable villaInput.listingPrice
      staticRateSettings.housePriceRanges = -(1/10) := by
    norm_num [priceRateFromTable, staticRateSettings, ltExt, List.find?,
      villaInput]
  refine ⟨?_, h1, h2⟩
  rw [h1, h2]
  norm_num

/-- C6 as amended: the flexible variant resolves Apartment against
`apartment_ranges` and every other property type against `house_ranges`;
the static variant (like `QuoteForm.tsx`) resolves Apartment against the
apartment table, House against the house table, and skips the price
component (contributing 0) for every other property type. -/
theorem price_table_selection_amended :
    (∀ (fd : CalculatorFormData) (fr : RateSettingsObj),
        fd.propertyType = "Apartment" →
        flexPropertyRate fd fr = optRangeRate fd.listingPrice fr.apartment_ranges)
    ∧ (∀ (fd : CalculatorFormData) (fr : RateSettingsObj),
        fd.propertyType ≠ "Apartment" →
        flexPropertyRate fd fr = optRangeRate fd.listingPrice fr.house_ranges)
    ∧ (∀ fd : CalculatorFormData, fd.propertyType = "Apartment" →
        staticPriceRate fd =
          priceRateFromTable fd.listingPrice staticRateSettings.apartmentPriceRanges)
    ∧ (∀ fd : CalculatorFormData, fd.propertyType = "House" →
        staticPriceRate fd =
          priceRateFromTable fd.listingPrice staticRateSettings.housePriceRanges)
    ∧ (∀ fd : CalculatorFormData,
        fd.propertyType ≠ "Apartment" → fd.propertyType ≠ "House" →
        staticPriceRate fd = 0) := by
  refine ⟨?_, ?_, ?_, ?_, ?_⟩
  · intro fd fr h
    unfold flexPropertyRate
    rw [if_pos h]
  · intro fd fr h
    unfold flexPropertyRate
    rw [if_neg h]
  · intro fd h
    unfold staticPriceRate
    rw [if_pos h]
  · intro fd h
    have h' : fd.propertyType ≠ "Apartment" := by simp [h]
    unfold staticPriceRate
    rw [if_neg h', if_pos h]
  · intro fd h1 h2
    unfold staticPriceRate
    rw [if_neg h1, if_neg h2]

/-- Witness for C6 (amended): `Villa` is neither Apartment nor House, so
the static price component is skipped. -/
theorem price_table_selection_amended_witness :
    staticPriceRate villaInput = 0 :=
  price_table_selection_amended.2.2.2.2 villaInput
    (by simp [villaInput]) (by simp [villaInput])

/-- Claim C7: the room aggregator is linear in counts: scaling every
entry's count by k ≥ 0 scales the equivalent room count by exactly k. -/
theorem aggregator_linear_in_counts :
    ∀ (k : ℚ), 0 ≤ k → ∀ rooms : RoomData,
      equivalentRoomsOf (scaleCounts k rooms) = k * equivalentRoomsOf rooms := by
  intro k _ rooms
  rw [equivalentRoomsOf_eq_sum, equivalentRoomsOf_eq_sum]
  unfold scaleCounts
  rw [List.map_map]
  induction rooms with
  | nil => simp
  | cons x xs ih =>
      simp only [List.map_cons, List.sum_cons, Function.comp] at *
      rw [ih]
      ring

/-- Witness for C7: doubling the counts of the Scenario A rooms doubles
the equivalent room count. -/
theorem aggregator_linear_in_counts_witness :
    equivalentRoomsOf (scaleCounts 2 scenarioARooms) =
      2 * equivalentRoomsOf scenarioARooms :=
  aggregator_linear_in_counts 2 (by norm_num) scenarioARooms

/-- Claim C8: the engine is deterministic and depends on nothing but the
explicit inputs: two form records agreeing on rooms, room rate, listing
price, distance, access difficulty and property type (but possibly
differing in the unread styling and address fields) produce identical
results under the same rate settings, on both variants. -/
theorem engine_deterministic :
    ∀ (fd1 fd2 : CalculatorFormData) (rs : Option RateSettingsObj),
      fd1.propertyType = fd2.propertyType →
      fd1.listingPrice = fd2.listingPrice →
      fd1.distanceFromWarehouse = fd2.distanceFromWarehouse →
      fd1.accessDifficulty = fd2.accessDifficulty →
      fd1.roomRate = fd2.roomRate →
      fd1.rooms = fd2.rooms →
      calculateQuoteFlexible fd1 rs = calculateQuoteFlexible fd2 rs
      ∧ calculateQuoteStatic fd1 = calculateQuoteStatic fd2 := by
  intro fd1 fd2 rs h1 h2 h3 h4 h5 h6
  obtain ⟨pt1, s1, a1, d1, lp1, ad1, rr1, ro1⟩ := fd1
  obtain ⟨pt2, s2, a2, d2, lp2, ad2, rr2, ro2⟩ := fd2
  dsimp only at h1 h2 h3 h4 h5 h6
  subst h1
  subst h2
  subst h3
  subst h4
  subst h5
  subst h6
  exact ⟨rfl, rfl⟩

/-- Witness for C8: Scenario B and its restyled copy differ only in
styling and address and get identical quotes. -/
theorem engine_deterministic_witness :
    calculateQuoteFlexible scenarioBInput (some scenarioBSettings) =
      calculateQuoteFlexible altStylingInput (some scenarioBSettings)
    ∧ calculateQuoteStatic scenarioBInput = calculateQuoteStatic altStylingInput :=
  engine_deterministic scenarioBInput altStylingInput (some scenarioBSettings)
    rfl rfl rfl rfl rfl rfl

/-- Claim C9: with no rate configuration loaded (`rateSettings` null) the
flexible variant skips every rate branch: totalRate is 0, the published
variation is 0 and the published final quote equals the published base
quote, which is the rounded unmodified base quote. -/
theorem null_settings_degrade_to_base :
    ∀ fd : CalculatorFormData,
      totalRateOf fd none = 0
      ∧ (calculateQuoteFlexible fd none).variation = 0
      ∧ (calculateQuoteFlexible fd none).finalQuote =
          (calculateQuoteFlexible fd none).baseQuote
      ∧ (calculateQuoteFlexible fd none).baseQuote =
          ((jsRound (rawBaseQuote fd) : ℚ)) := by
  intro fd
  have h0 : jsRound 0 = 0 := jsRound_eval (by norm_num) (by norm_num)
  refine ⟨rfl, ?_, ?_, rfl⟩
  · simp only [calculateQuoteFlexible, totalRateOf]
    rw [zero_mul, h0]
    norm_num
  · simp only [calculateQuoteFlexible, totalRateOf]
    rw [zero_mul, add_zero]

/-- Claim C10: every built-in static range table ends with an Infinity
upper bound, so the first-match lookup always finds a range: for every
(finite) listing price and distance the `find` on the apartment, house
and distance tables succeeds, making the contribute-0 fallback
unreachable on those dimensions. -/
theorem static_tables_always_match :
    ∀ (p d : ℚ),
      (staticRateSettings.apartmentPriceRanges.getLast? = some ⟨.inf, 0⟩
        ∧ staticRateSettings.housePriceRanges.getLast? = some ⟨.inf, 1/5⟩
        ∧ staticRateSettings.distanceRanges.getLast? = some ⟨.inf, 1/4⟩)
      ∧ (staticRateSettings.apartmentPriceRanges.find?
          (fun r => ltExt p r.maxPrice)).isSome = true
      ∧ (staticRateSettings.housePriceRanges.find?
          (fun r => ltExt p r.maxPrice)).isSome = true
      ∧ (staticRateSettings.distanceRanges.find?
          (fun r => ltExt d r.maxDistance)).isSome = true := by
  intro p d
  refine ⟨⟨rfl, rfl, rfl⟩, ?_, ?_, ?_⟩
  · rw [List.find?_isSome]
    exact ⟨⟨.inf, 0⟩, by simp [staticRateSettings], rfl⟩
  · rw [List.find?_isSome]
    exact ⟨⟨.inf, 1/5⟩, by simp [staticRateSettings], rfl⟩
  · rw [List.find?_isSome]
    exact ⟨⟨.inf, 1/4⟩, by simp [staticRateSettings], rfl⟩
